import Mathlib

/-!
Verification of the request-dispatch surface of the ClusterRunner master
(`app/web_framework/cluster_master_application.py`).

The handler classes, the two versioned route trees (`api_v1`, `api_v2`) and the
individual handler methods are embedded directly from the source file.  The
collaborators that the dispatch layer calls into (`ClusterMaster`,
`SlaveRegistry`, the console-output store) live outside the dispatch layer and
are modelled as structures of abstract result-producing functions, so theorems
quantify over their behaviour.  Infrastructure of this repository that the
source file imports but whose code is not part of the dispatch layer
(`RouteNode.add_children` / `get_all_handlers`, `UrlBuilder`,
`ClusterBaseAPIHandler` helpers, the `authenticated` decorator) is modelled
from the specification; each such definition carries a doc comment starting
`Modelled from the spec:`.
-/

namespace ClusterMaster

/-- The handler classes declared in `cluster_master_application.py`
(lines 103-434), one constructor per class. -/
inductive HandlerType where
  | rootHandler
  | apiVersionOneHandler
  | metricsHandler
  | versionHandler
  | queueHandler
  | buildsHandler
  | v2BuildsHandler
  | buildHandler
  | buildResultRedirectHandler
  | buildTarResultHandler
  | buildZipResultHandler
  | subjobsHandler
  | v2SubjobsHandler
  | subjobHandler
  | subjobResultHandler
  | atomsHandler
  | v2AtomsHandler
  | atomHandler
  | atomConsoleHandler
  | slavesHandler
  | slaveHandler
  | slaveShutdownHandler
  | slavesShutdownHandler
  | slavesHeartbeatHandler
  | eventlogHandler
  deriving DecidableEq, Repr

/-- A node of the declarative route tree (`app.web_framework.route_node.RouteNode`):
a path-segment pattern, the handler class it dispatches to, an optional symbolic
name, and the ordered list of child nodes. -/
inductive RouteNode where
  | mk (pattern : String) (handler : HandlerType) (name : Option String)
      (children : List RouteNode)
  deriving Repr

def RouteNode.pattern : RouteNode → String
  | .mk p _ _ _ => p

def RouteNode.handler : RouteNode → HandlerType
  | .mk _ h _ _ => h

def RouteNode.name : RouteNode → Option String
  | .mk _ _ n _ => n

def RouteNode.children : RouteNode → List RouteNode
  | .mk _ _ _ cs => cs

/-- The v1 route tree, transcribed from `ClusterMasterApplication.__init__`
lines 34-63 of the source. -/
def api_v1 : List RouteNode := [
  .mk "v1" .apiVersionOneHandler none [
    .mk "metrics" .metricsHandler none [],
    .mk "version" .versionHandler none [],
    .mk "build" .buildsHandler (some "builds") [
      .mk "(\\d+)" .buildHandler (some "build") [
        .mk "result" .buildResultRedirectHandler none [],
        .mk "artifacts.tar.gz" .buildTarResultHandler none [],
        .mk "artifacts.zip" .buildZipResultHandler none [],
        .mk "subjob" .subjobsHandler (some "subjobs") [
          .mk "(\\d+)" .subjobHandler (some "subjob") [
            .mk "atom" .atomsHandler (some "atoms") [
              .mk "(\\d+)" .atomHandler (some "atom") [
                .mk "console" .atomConsoleHandler none []]],
            .mk "result" .subjobResultHandler none []]]]],
    .mk "queue" .queueHandler none [],
    .mk "slave" .slavesHandler (some "slaves") [
      .mk "(\\d+)" .slaveHandler (some "slave") [
        .mk "shutdown" .slaveShutdownHandler (some "shutdown") [],
        .mk "heartbeat" .slavesHeartbeatHandler none []],
      .mk "shutdown" .slavesShutdownHandler (some "shutdown") []],
    .mk "eventlog" .eventlogHandler none []]]

/-- The v2 route tree, transcribed from `ClusterMasterApplication.__init__`
lines 65-93 of the source.  Note that the `slaves` subtree reuses the v1
handler classes (`_SlavesHandler`, `_SlaveHandler`, ...) unchanged. -/
def api_v2 : List RouteNode := [
  .mk "metrics" .metricsHandler none [],
  .mk "version" .versionHandler none [],
  .mk "builds" .v2BuildsHandler none [
    .mk "(\\d+)" .buildHandler (some "build") [
      .mk "result" .buildResultRedirectHandler none [],
      .mk "artifacts.tar.gz" .buildTarResultHandler none [],
      .mk "artifacts.zip" .buildZipResultHandler none [],
      .mk "subjobs" .v2SubjobsHandler none [
        .mk "(\\d+)" .subjobHandler (some "subjob") [
          .mk "atoms" .v2AtomsHandler none [
            .mk "(\\d+)" .atomHandler (some "atom") [
              .mk "console" .atomConsoleHandler none []]],
          .mk "result" .subjobResultHandler none []]]]],
  .mk "queue" .queueHandler none [],
  .mk "slaves" .slavesHandler none [
    .mk "(\\d+)" .slaveHandler (some "slave") [
      .mk "shutdown" .slaveShutdownHandler none [],
      .mk "heartbeat" .slavesHeartbeatHandler none []],
    .mk "shutdown" .slavesShutdownHandler none []],
  .mk "eventlog" .eventlogHandler none []]

/-- A compiled dispatch-table entry: absolute matchable path, handler class and
the version tag of the mount the entry came from.  The process-wide default
parameter bag (the `cluster_master` reference injected into every handler in
`ClusterMasterApplication.__init__` line 29-31) is uniform across all entries
and is modelled by the explicit collaborator argument every embedded handler
function takes. -/
structure CompiledRoute where
  fullPattern : String
  handler : HandlerType
  version : Option Nat
  deriving DecidableEq, Repr

/-- Modelled from the spec: the `/`-joined pattern composition performed by
`get_all_handlers` (`app.web_framework.cluster_application`, not under `src/`):
"a node's full path pattern is the `/`-joined concatenation of its ancestors'
patterns, root first". -/
def joinPat (pre pat : String) : String :=
  if pre = "" then pat
  else if pre = "/" then pre ++ pat
  else pre ++ "/" ++ pat

mutual

/-- Modelled from the spec: the route-tree compiler `get_all_handlers`
(`app.web_framework.cluster_application`, not under `src/`): a pre-order walk
emitting one compiled entry per node, composing the ancestors' patterns. -/
def compileNode (pre : String) (version : Option Nat) : RouteNode → List CompiledRoute
  | .mk pat h _ cs =>
    let full := joinPat pre pat
    ⟨full, h, version⟩ :: compileList full version cs

/-- Modelled from the spec: pre-order, order-preserving traversal of an ordered
list of sibling route nodes. -/
def compileList (pre : String) (version : Option Nat) : List RouteNode → List CompiledRoute
  | [] => []
  | c :: cs => compileNode pre version c ++ compileList pre version cs

end

/-- Modelled from the spec: `get_all_handlers(root, default_params)` compiles a
route tree rooted at a single node into the flat ordered dispatch table. -/
def get_all_handlers (root : RouteNode) (version : Option Nat) : List CompiledRoute :=
  compileNode "" version root

/-- Modelled from the spec: the v2 version mount.  `root.add_children(api_v2, version=2)`
(from `RouteNode.add_children`, not under `src/`) attaches the v2 subtrees
"under a version-qualified prefix segment" (`v2`); the v1 subtree carries its
own explicit `v1` prefix node in the source. -/
def v2_mount : RouteNode := .mk "v2" .rootHandler none api_v2

/-- The full compiled dispatch table built in `ClusterMasterApplication.__init__`
lines 95-99: the root node `/`, the v1 mount tagged version 1, and the v2
mount tagged version 2. -/
def masterTable : List CompiledRoute :=
  ⟨"/", .rootHandler, none⟩ ::
    (compileList "/" (some 1) api_v1 ++ compileList "/" (some 2) [v2_mount])

/-- The compiled dispatch table written out entry by entry (kept in the file
so that concrete facts about the table can be settled by `decide`; the lemma
`masterTable_eq` proves it equal to the compiled `masterTable`). -/
def masterTable_explicit : List CompiledRoute := [
  ⟨"/", .rootHandler, none⟩,
  ⟨"/v1", .apiVersionOneHandler, some 1⟩,
  ⟨"/v1/metrics", .metricsHandler, some 1⟩,
  ⟨"/v1/version", .versionHandler, some 1⟩,
  ⟨"/v1/build", .buildsHandler, some 1⟩,
  ⟨"/v1/build/(\\d+)", .buildHandler, some 1⟩,
  ⟨"/v1/build/(\\d+)/result", .buildResultRedirectHandler, some 1⟩,
  ⟨"/v1/build/(\\d+)/artifacts.tar.gz", .buildTarResultHandler, some 1⟩,
  ⟨"/v1/build/(\\d+)/artifacts.zip", .buildZipResultHandler, some 1⟩,
  ⟨"/v1/build/(\\d+)/subjob", .subjobsHandler, some 1⟩,
  ⟨"/v1/build/(\\d+)/subjob/(\\d+)", .subjobHandler, some 1⟩,
  ⟨"/v1/build/(\\d+)/subjob/(\\d+)/atom", .atomsHandler, some 1⟩,
  ⟨"/v1/build/(\\d+)/subjob/(\\d+)/atom/(\\d+)", .atomHandler, some 1⟩,
  ⟨"/v1/build/(\\d+)/subjob/(\\d+)/atom/(\\d+)/console", .atomConsoleHandler, some 1⟩,
  ⟨"/v1/build/(\\d+)/subjob/(\\d+)/result", .subjobResultHandler, some 1⟩,
  ⟨"/v1/queue", .queueHandler, some 1⟩,
  ⟨"/v1/slave", .slavesHandler, some 1⟩,
  ⟨"/v1/slave/(\\d+)", .slaveHandler, some 1⟩,
  ⟨"/v1/slave/(\\d+)/shutdown", .slaveShutdownHandler, some 1⟩,
  ⟨"/v1/slave/(\\d+)/heartbeat", .slavesHeartbeatHandler, some 1⟩,
  ⟨"/v1/slave/shutdown", .slavesShutdownHandler, some 1⟩,
  ⟨"/v1/eventlog", .eventlogHandler, some 1⟩,
  ⟨"/v2", .rootHandler, some 2⟩,
  ⟨"/v2/metrics", .metricsHandler, some 2⟩,
  ⟨"/v2/version", .versionHandler, some 2⟩,
  ⟨"/v2/builds", .v2BuildsHandler, some 2⟩,
  ⟨"/v2/builds/(\\d+)", .buildHandler, some 2⟩,
  ⟨"/v2/builds/(\\d+)/result", .buildResultRedirectHandler, some 2⟩,
  ⟨"/v2/builds/(\\d+)/artifacts.tar.gz", .buildTarResultHandler, some 2⟩,
  ⟨"/v2/builds/(\\d+)/artifacts.zip", .buildZipResultHandler, some 2⟩,
  ⟨"/v2/builds/(\\d+)/subjobs", .v2SubjobsHandler, some 2⟩,
  ⟨"/v2/builds/(\\d+)/subjobs/(\\d+)", .subjobHandler, some 2⟩,
  ⟨"/v2/builds/(\\d+)/subjobs/(\\d+)/atoms", .v2AtomsHandler, some 2⟩,
  ⟨"/v2/builds/(\\d+)/subjobs/(\\d+)/atoms/(\\d+)", .atomHandler, some 2⟩,
  ⟨"/v2/builds/(\\d+)/subjobs/(\\d+)/atoms/(\\d+)/console", .atomConsoleHandler, some 2⟩,
  ⟨"/v2/builds/(\\d+)/subjobs/(\\d+)/result", .subjobResultHandler, some 2⟩,
  ⟨"/v2/queue", .queueHandler, some 2⟩,
  ⟨"/v2/slaves", .slavesHandler, some 2⟩,
  ⟨"/v2/slaves/(\\d+)", .slaveHandler, some 2⟩,
  ⟨"/v2/slaves/(\\d+)/shutdown", .slaveShutdownHandler, some 2⟩,
  ⟨"/v2/slaves/(\\d+)/heartbeat", .slavesHeartbeatHandler, some 2⟩,
  ⟨"/v2/slaves/shutdown", .slavesShutdownHandler, some 2⟩,
  ⟨"/v2/eventlog", .eventlogHandler, some 2⟩
]

/-- The compiled table evaluates to the explicit entry list (one entry per
route node, pre-order, matching the spec's HTTP-surface table). -/
theorem masterTable_eq : masterTable = masterTable_explicit := by
  simp only [masterTable, masterTable_explicit, api_v1, api_v2, v2_mount,
    compileNode, compileList, joinPat]
  decide

/-! Collaborator model.  The `ClusterMaster`, `Build`, `Subjob`, `Slave` and
`SlaveRegistry` objects live outside the dispatch layer (spec section 1: "OUT OF
SCOPE ... assumed to exist as already-implemented services").  They are embedded
as structures of result-producing functions so theorems quantify over every
possible collaborator behaviour. -/

/-- The domain not-found error `app.util.exceptions.ItemNotFoundError`, imported
by the source (line 13) and caught in `_AtomConsoleHandler.get` (line 254). -/
structure ItemNotFoundError where
  msg : String
  deriving DecidableEq, Repr

/-- An atom as the dispatch layer sees it: an object exposing
`api_representation()`. -/
structure Atom where
  api_representation : String
  deriving DecidableEq, Repr

/-- A slave (worker) object: `slave.url` (line 264) and `slave.id` (line 187). -/
structure Slave where
  url : String
  id : Nat
  deriving DecidableEq, Repr

/-- A subjob object as used by the source: `subjob.slave` (line 259, `None` when
no worker is assigned) and the method `subjob.atoms` (a bound method — it is
called as `subjob.atoms()` at line 203). -/
structure Subjob where
  slave : Option Slave
  atoms : Unit → List Atom

/-- A build object: `build.subjob(subjob_id)` (lines 170, 222, 258). -/
structure Build where
  subjob : Nat → Subjob

/-- The `cluster_master` collaborator interface used by the embedded handlers:
`get_build` (line 257) and `get_console_output` (line 244), plus the configured
`results_directory` it is passed (line 248). -/
structure Master where
  get_build : Nat → Build
  get_console_output : Nat → Nat → Nat → String → Int → Option Int →
    Except ItemNotFoundError String
  results_directory : String

/-! Console-output fallback (`_AtomConsoleHandler.get`, lines 230-272). -/

/-- The three ways `_AtomConsoleHandler.get` can conclude: write the payload
body, issue an HTTP redirect, or let the caught exception propagate (`raise e`,
line 262). -/
inductive ConsoleResult where
  | body (payload : String)
  | redirect (target : String)
  | raised (e : ItemNotFoundError)
  deriving DecidableEq, Repr

/-- `urllib.parse.urlencode` applied to the query dict built at lines 266-271:
`max_lines` is always present and inserted first; `offset_line` is appended only
when the client supplied it. -/
def urlencode_console (max_lines : Int) (offset_line : Option Int) : String :=
  match offset_line with
  | none => "max_lines=" ++ toString max_lines
  | some o => "max_lines=" ++ toString max_lines ++ "&offset_line=" ++ toString o

/-- Modelled from the spec: `UrlBuilder(slave.url).url(*segments)`
(`app.util.url_builder`, not under `src/`): the redirect target is "the
equivalent console endpoint on that worker's base URL" whose "path mirrors the
same build/subjob/atom addressing scheme used locally" (which is
`/v1/build/{b}/subjob/{s}/atom/{a}/console`). -/
def UrlBuilder_url (base_url : String) (segments : List String) : String :=
  base_url ++ "/v1/" ++ String.intercalate "/" segments

/-- `_AtomConsoleHandler.get` (lines 231-272).  The query-argument layer is
folded into the two `Option Int` arguments: `max_lines` defaults to `50` when
the client omits it (line 237) and `offset_line` stays optional (lines
238-241). -/
def AtomConsoleHandler_get (master : Master) (build_id subjob_id atom_id : Nat)
    (max_lines_arg offset_line_arg : Option Int) : ConsoleResult :=
  let max_lines := max_lines_arg.getD 50
  let offset_line := offset_line_arg
  match master.get_console_output build_id subjob_id atom_id
      master.results_directory max_lines offset_line with
  | .ok response => .body response
  | .error e =>
    let build := master.get_build build_id
    let subjob := build.subjob subjob_id
    match subjob.slave with
    | none => .raised e
    | some slave =>
      let slave_console_url := UrlBuilder_url slave.url
        ["build", toString build_id, "subjob", toString subjob_id,
         "atom", toString atom_id, "console"]
      .redirect (slave_console_url ++ "?" ++ urlencode_console max_lines offset_line)

/-! Pagination (`_V2BuildsHandler.get` lines 290-296, `_V2SubjobsHandler.get`
lines 157-164, `_V2AtomsHandler.get` lines 208-216, and their unpaginated v1
counterparts, plus `_SlavesHandler.get` lines 372-377 which both mounts share). -/

/-- The pagination-relevant query parameters of a request. -/
structure Query where
  offset : Option Nat
  limit : Option Nat
  deriving DecidableEq, Repr

/-- Modelled from the spec: `get_pagination_params`
(`ClusterBaseAPIHandler`, not under `src/`): `offset` defaults to 0; the
`limit` default is implementation-defined (unbounded here). -/
def get_pagination_params (q : Query) : Nat × Option Nat :=
  (q.offset.getD 0, q.limit)

/-- Modelled from the spec: the slicing performed by the paginated collaborator
calls `get_builds(offset, limit)` / `get_subjobs(offset, limit)` /
`get_atoms(offset, limit)` (not under `src/`): "the sub-sequence
`[offset, offset+limit)` of the full ordered collection, clamped to collection
bounds". -/
def paginate (xs : List α) (offset : Nat) (limit : Option Nat) : List α :=
  match limit with
  | none => xs.drop offset
  | some l => (xs.drop offset).take l

/-- `_BuildsHandler.get` (lines 283-287): lists every build via `get_builds()`;
reads no pagination parameters. -/
def BuildsHandler_get (builds : List α) (_q : Query) : List α := builds

/-- `_V2BuildsHandler.get` (lines 290-296): lists builds through
`get_pagination_params` and `get_builds(offset, limit)`. -/
def V2BuildsHandler_get (builds : List α) (q : Query) : List α :=
  let p := get_pagination_params q
  paginate builds p.1 p.2

/-- `_SubjobsHandler.get` (lines 148-154): lists every subjob of the build;
reads no pagination parameters. -/
def SubjobsHandler_get (subjobs : List α) (_q : Query) : List α := subjobs

/-- `_V2SubjobsHandler.get` (lines 157-164): lists subjobs through
`get_pagination_params` and `get_subjobs(offset, limit)`. -/
def V2SubjobsHandler_get (subjobs : List α) (q : Query) : List α :=
  let p := get_pagination_params q
  paginate subjobs p.1 p.2

/-- `_AtomsHandler.get` (lines 198-205): lists every atom of the subjob
(`subjob.atoms()`); reads no pagination parameters. -/
def AtomsHandler_get (atoms : List α) (_q : Query) : List α := atoms

/-- `_V2AtomsHandler.get` (lines 208-216): lists atoms through
`get_pagination_params` and `subjob.get_atoms(offset, limit)`. -/
def V2AtomsHandler_get (atoms : List α) (q : Query) : List α :=
  let p := get_pagination_params q
  paginate atoms p.1 p.2

/-- `_SlavesHandler.get` (lines 372-377): returns every registered slave from
`SlaveRegistry.singleton().get_all_slaves_by_id().values()`.  This one handler
class serves the slave listing in BOTH route trees (source lines 56 and 86) and
reads no pagination parameters. -/
def SlavesHandler_get (slaves : List α) (_q : Query) : List α := slaves

/-! Mutating endpoints: authentication, outcome envelopes and collaborator
call traces. -/

/-- One call into a scheduler/registry collaborator, recorded in emission order
by the embedded handler bodies. -/
inductive CollabCall where
  | get_slave
  | record_event
  | handle_request_for_new_build
  | handle_request_to_update_build
  | handle_slave_state_update
  | update_slave_last_heartbeat_time
  | set_shutdown_mode_on_slaves (slaves : List Nat)
  | handle_result_reported_from_slave
  deriving DecidableEq, Repr

/-- The parts of an incoming request the mutating handlers consume. -/
structure Request where
  authenticated : Bool
  body_payload : String
  slave_state : Option String
  shutdown_all : Bool
  shutdown_slaves : List Nat
  deriving DecidableEq, Repr

/-- What a handler writes back to the client. -/
inductive Response where
  | envelope (success : Bool) (body : String) (status : Nat)
  | json (body : String)
  | redirect (target : String)
  | unauthenticated
  | empty
  deriving DecidableEq, Repr

/-- Whether a response is the explicit `\x7bsuccess, body\x7d` envelope. -/
def Response.isEnvelope : Response → Bool
  | .envelope _ _ _ => true
  | _ => false

/-- A handler run either writes a response or lets an exception escape. -/
inductive Outcome where
  | response (r : Response)
  | error (msg : String)
  deriving DecidableEq, Repr

/-- Modelled from the spec: `ClusterBaseAPIHandler._write_status` (not under
`src/`): writes the explicit `\x7bsuccess, body\x7d` envelope with the given
success flag and status code. -/
def write_status (body : String) (success : Bool) (status : Nat) : Response :=
  .envelope success body status

/-- Modelled from the spec: the `authenticated` decorator (`app.util.decorators`,
not under `src/`): "unauthenticated calls are rejected before reaching handler
logic", so a rejected call performs no collaborator calls. -/
def authenticated_decorator (handler : Request → List CollabCall × Outcome)
    (req : Request) : List CollabCall × Outcome :=
  if req.authenticated then handler req else ([], .response .unauthenticated)

/-- The scheduler-side collaborator results for the build mutating endpoints:
each returns the `(success, response)` pair the source unpacks. -/
structure Scheduler where
  handle_request_for_new_build : String → Bool × String
  handle_request_to_update_build : String → String → Bool × String

/-- The `SlaveRegistry` collaborator interface used by the embedded handlers. -/
structure SlaveRegistry where
  get_slave_by_id : Nat → Except ItemNotFoundError Slave
  get_slave_by_url : Option String → Except ItemNotFoundError Slave
  all_slave_ids : List Nat

/-- Body of `_BuildsHandler.post` (lines 277-281): delegates to
`handle_request_for_new_build` and writes the envelope with status
202 ACCEPTED on success and 400 BAD_REQUEST on rejection. -/
def BuildsHandler_post_body (sched : Scheduler) (req : Request) :
    List CollabCall × Outcome :=
  let pr := sched.handle_request_for_new_build req.body_payload
  ([.handle_request_for_new_build],
    .response (write_status pr.2 pr.1 (if pr.1 then 202 else 400)))

/-- `_BuildsHandler.post` (lines 276-281), `@authenticated`. -/
def BuildsHandler_post (sched : Scheduler) : Request → List CollabCall × Outcome :=
  authenticated_decorator (BuildsHandler_post_body sched)

/-- Body of `_BuildHandler.put` (lines 301-305): delegates to
`handle_request_to_update_build` and writes the envelope with status 200 OK on
success and 400 BAD_REQUEST on rejection. -/
def BuildHandler_put_body (sched : Scheduler) (build_id : String) (req : Request) :
    List CollabCall × Outcome :=
  let pr := sched.handle_request_to_update_build build_id req.body_payload
  ([.handle_request_to_update_build],
    .response (write_status pr.2 pr.1 (if pr.1 then 200 else 400)))

/-- `_BuildHandler.put` (lines 300-305), `@authenticated`. -/
def BuildHandler_put (sched : Scheduler) (build_id : String) :
    Request → List CollabCall × Outcome :=
  authenticated_decorator (BuildHandler_put_body sched build_id)

/-- Body of `_SlaveHandler.put` (lines 389-397): looks up the slave, applies the
state update, refreshes the heartbeat, then writes the default-success
envelope. -/
def SlaveHandler_put_body (registry : SlaveRegistry) (slave_id : Nat)
    (_req : Request) : List CollabCall × Outcome :=
  match registry.get_slave_by_id slave_id with
  | .error e => ([.get_slave], .error e.msg)
  | .ok slave =>
    ([.get_slave, .handle_slave_state_update, .update_slave_last_heartbeat_time],
      .response (write_status slave.url true 200))

/-- `_SlaveHandler.put` (lines 388-397), `@authenticated`. -/
def SlaveHandler_put (registry : SlaveRegistry) (slave_id : Nat) :
    Request → List CollabCall × Outcome :=
  authenticated_decorator (SlaveHandler_put_body registry slave_id)

/-- Body of `_SlaveShutdownHandler.post` (lines 412-415): sets shutdown mode on
the single slave and returns WITHOUT writing any response body. -/
def SlaveShutdownHandler_post_body (slave_id : Nat) (_req : Request) :
    List CollabCall × Outcome :=
  ([.set_shutdown_mode_on_slaves [slave_id]], .response .empty)

/-- `_SlaveShutdownHandler.post` (lines 411-415), `@authenticated`. -/
def SlaveShutdownHandler_post (slave_id : Nat) : Request → List CollabCall × Outcome :=
  authenticated_decorator (SlaveShutdownHandler_post_body slave_id)

/-- Body of `_SlavesShutdownHandler.post` (lines 420-427): chooses the target
slave set from the body, sets shutdown mode on it, and returns WITHOUT writing
any response body. -/
def SlavesShutdownHandler_post_body (registry : SlaveRegistry) (req : Request) :
    List CollabCall × Outcome :=
  let slaves_to_shutdown :=
    if req.shutdown_all then registry.all_slave_ids else req.shutdown_slaves
  ([.set_shutdown_mode_on_slaves slaves_to_shutdown], .response .empty)

/-- `_SlavesShutdownHandler.post` (lines 419-427), `@authenticated`. -/
def SlavesShutdownHandler_post (registry : SlaveRegistry) :
    Request → List CollabCall × Outcome :=
  authenticated_decorator (SlavesShutdownHandler_post_body registry)

/-! Subjob result submission (`_SubjobResultHandler.post`, lines 178-191). -/

/-- `_SubjobResultHandler.post` (lines 178-191).  `files` is the multipart file
map `self.request.files` (field name to list of uploaded files, each file kept
abstract as a string).  The slave lookup (line 180) precedes the file check
(lines 181-183, `if not file_payload: raise RuntimeError`), which itself
precedes `analytics.record_event` (line 186) and
`handle_result_reported_from_slave` (line 189); on success the default-success
envelope is written (line 191). -/
def SubjobResultHandler_post (registry : SlaveRegistry) (slave_url : Option String)
    (files : List (String × List String)) (_build_id _subjob_id : Nat) :
    List CollabCall × Outcome :=
  match registry.get_slave_by_url slave_url with
  | .error e => ([.get_slave], .error e.msg)
  | .ok _slave =>
    match files.lookup "file" with
    | none => ([.get_slave], .error "Result file not provided")
    | some [] => ([.get_slave], .error "Result file not provided")
    | some (_f :: _) =>
      ([.get_slave, .record_event, .handle_result_reported_from_slave],
        .response (write_status "" true 200))

/-! Atom fetch (`_AtomHandler.get`, lines 220-227). -/

/-- How a run of `_AtomHandler.get` can conclude. -/
inductive AtomOutcome where
  | ok (atom_repr : String)
  | typeError (msg : String)
  | indexError
  | itemNotFound (e : ItemNotFoundError)
  deriving DecidableEq, Repr

/-- A Python value in subscript position: either a list of atoms or a bound
method (an attribute access on a method that was not called). -/
inductive PySubscriptable where
  | pylist (xs : List Atom)
  | boundMethod (f : Unit → List Atom)

/-- Python subscript semantics `obj[i]` for the two shapes at play: indexing a
list out of range raises `IndexError`; subscripting a bound method raises
`TypeError` regardless of the index. -/
def PySubscriptable.getitem : PySubscriptable → Nat → AtomOutcome
  | .pylist xs, i =>
    match xs.get? i with
    | some a => .ok a.api_representation
    | none => .indexError
  | .boundMethod _, _ => .typeError "method object is not subscriptable"

/-- `_AtomHandler.get` (lines 220-227).  Line 223 binds `atoms = subjob.atoms`
WITHOUT calling the method (contrast `subjob.atoms()` in `_AtomsHandler.get`,
line 203), so line 225 subscripts the bound method itself. -/
def AtomHandler_get (master : Master) (build_id subjob_id atom_id : Nat) :
    AtomOutcome :=
  let build := master.get_build build_id
  let subjob := build.subjob subjob_id
  let atoms := PySubscriptable.boundMethod subjob.atoms
  atoms.getitem atom_id

/-! Build result redirect (`_BuildResultRedirectHandler.get`, lines 314-319). -/

/-- `_BuildResultRedirectHandler.get` (lines 318-319): a bare
`self.redirect('/v1/build/\x7b\x7d/artifacts.tar.gz'.format(build_id))`.  The
handler receives the master reference like every other handler but never
consults it. -/
def BuildResultRedirectHandler_get (_master : Master) (build_id : String) : Response :=
  .redirect ("/v1/build/" ++ build_id ++ "/artifacts.tar.gz")

/-- Split a path into its `/`-separated segments (an executable counterpart of
`String.splitOn "/"`, written over the character list so it evaluates inside
the kernel). -/
def splitSlash (s : String) : List String :=
  (s.data.foldr
    (fun c acc =>
      match acc with
      | [] => if c = '/' then [[], []] else [[c]]
      | g :: gs => if c = '/' then [] :: g :: gs else (c :: g) :: gs)
    [[]]).map String.mk

/-- Whether one compiled pattern segment accepts a concrete path segment: the
numeric capture group accepts exactly the nonempty digit strings; a literal
segment accepts itself. -/
def segMatches (patSeg seg : String) : Bool :=
  if patSeg = "(\\d+)" then decide (seg ≠ "") && seg.data.all Char.isDigit
  else decide (patSeg = seg)

/-- Whether a full compiled pattern accepts a concrete request path,
segment by segment. -/
def pathMatches (pat path : String) : Bool :=
  let ps := splitSlash pat
  let ss := splitSlash path
  decide (ps.length = ss.length) && (List.zip ps ss).all (fun z => segMatches z.1 z.2)

/-! Compilation purity (claim C3) and routing-ambiguity detection (claim C5). -/

/-- Compilation as a state-observing run: the compiled table together with the
route tree as it stands after compilation. -/
def compileRun (root : RouteNode) (version : Option Nat) :
    List CompiledRoute × RouteNode :=
  (get_all_handlers root version, root)

/-- The dispatch-relevant key of a compiled entry: its version and its full
pattern. -/
def routeKey (e : CompiledRoute) : Option Nat × String :=
  (e.version, e.fullPattern)

/-- Modelled from the spec: the duplicate-pattern test behind the
RoutingAmbiguity failure policy — two entries of the same version sharing a
full pattern. -/
def hasRoutingAmbiguity (es : List CompiledRoute) : Bool :=
  decide (¬ (es.map routeKey).Nodup)

/-- Modelled from the spec: the construction-time duplicate-pattern guard:
"duplicate full patterns within the same version is a construction-time fatal
error (ambiguous dispatch)". -/
def checkRoutingAmbiguity (es : List CompiledRoute) :
    Except String (List CompiledRoute) :=
  if hasRoutingAmbiguity es then .error "RoutingAmbiguity" else .ok es

/-- The routing table the application is constructed with
(`ClusterMasterApplication.__init__` lines 95-100), passed through the
construction-time ambiguity guard. -/
def ClusterMasterApplication_handlers : Except String (List CompiledRoute) :=
  checkRoutingAmbiguity masterTable

/-! Concrete collaborator fixtures used by witnesses. -/

/-- A worker at the spec's example base URL. -/
def worker7 : Slave := ⟨"http://worker-7:8080", 7⟩

/-- A concrete not-found condition raised by the local console store. -/
def consoleNotFoundError : ItemNotFoundError := ⟨"no console output for atom"⟩

/-- A master whose console store has nothing and whose subjobs all have
`worker7` assigned. -/
def consoleMasterWithSlave : Master :=
  ⟨fun _ => ⟨fun _ => ⟨some worker7, fun _ => []⟩⟩,
   fun _ _ _ _ _ _ => .error consoleNotFoundError,
   "/results"⟩

/-- A master whose console store has nothing and whose subjobs have no
assigned worker. -/
def consoleMasterNoSlave : Master :=
  ⟨fun _ => ⟨fun _ => ⟨none, fun _ => []⟩⟩,
   fun _ _ _ _ _ _ => .error consoleNotFoundError,
   "/results"⟩

/-! Claim theorems. -/

/-- C1: whenever the master's local console store raises the NotFound condition
and the subjob has an assigned worker, `_AtomConsoleHandler.get` issues an HTTP
redirect to the worker's equivalent console endpoint — the same
build/subjob/atom addressing scheme rooted at the worker's base URL —
forwarding `max_lines` (defaulting to 50 when the client omitted it) and, only
when the client supplied it, `offset_line` as query parameters. -/
theorem console_fallback_redirects_to_slave
    (master : Master) (build_id subjob_id atom_id : Nat)
    (max_lines_arg offset_line_arg : Option Int)
    (e : ItemNotFoundError) (slave : Slave)
    (hstore : master.get_console_output build_id subjob_id atom_id
      master.results_directory (max_lines_arg.getD 50) offset_line_arg = .error e)
    (hslave : ((master.get_build build_id).subjob subjob_id).slave = some slave) :
    AtomConsoleHandler_get master build_id subjob_id atom_id max_lines_arg offset_line_arg
      = .redirect (UrlBuilder_url slave.url
          ["build", toString build_id, "subjob", toString subjob_id,
           "atom", toString atom_id, "console"]
          ++ "?" ++ urlencode_console (max_lines_arg.getD 50) offset_line_arg) := by
  simp only [AtomConsoleHandler_get, hstore, hslave]

/-- Witness for C1, matching the spec's own example: all hypotheses hold at a
concrete master with worker `http://worker-7:8080` and the redirect target
computes to the exact URL with the defaulted `max_lines=50` and no
`offset_line`. -/
theorem console_fallback_redirects_to_slave_witness :
    AtomConsoleHandler_get consoleMasterWithSlave 1 2 3 none none
      = .redirect "http://worker-7:8080/v1/build/1/subjob/2/atom/3/console?max_lines=50" :=
  (console_fallback_redirects_to_slave consoleMasterWithSlave 1 2 3 none none
    consoleNotFoundError worker7 rfl rfl).trans (by decide)

/-- C2: whenever the master's local console store raises the NotFound condition
and the subjob has no assigned worker, `_AtomConsoleHandler.get` re-raises the
original condition unchanged — it is neither converted into a redirect nor
swallowed into an empty body. -/
theorem console_notfound_propagates_without_slave
    (master : Master) (build_id subjob_id atom_id : Nat)
    (max_lines_arg offset_line_arg : Option Int) (e : ItemNotFoundError)
    (hstore : master.get_console_output build_id subjob_id atom_id
      master.results_directory (max_lines_arg.getD 50) offset_line_arg = .error e)
    (hslave : ((master.get_build build_id).subjob subjob_id).slave = none) :
    AtomConsoleHandler_get master build_id subjob_id atom_id max_lines_arg offset_line_arg
      = .raised e := by
  simp only [AtomConsoleHandler_get, hstore, hslave]

/-- Witness for C2: at a concrete master with no assigned worker, the handler
re-raises exactly the store's original not-found condition. -/
theorem console_notfound_propagates_without_slave_witness :
    AtomConsoleHandler_get consoleMasterNoSlave 1 2 3 (some 80) (some 9)
      = .raised consoleNotFoundError :=
  console_notfound_propagates_without_slave consoleMasterNoSlave 1 2 3
    (some 80) (some 9) consoleNotFoundError rfl rfl

/-- C3: compiling a route tree is a pure function — it leaves the input tree
unchanged, and recompiling the tree obtained after a first compilation yields
the identical ordered table. -/
theorem compile_is_pure_and_idempotent (root : RouteNode) (version : Option Nat) :
    (compileRun root version).2 = root ∧
    (compileRun ((compileRun root version).2) version).1 = (compileRun root version).1 :=
  ⟨rfl, rfl⟩

/-- C4 counterexample: the slave listing is a listing endpoint of API v2 (the
compiled v2 table maps `/v2/slaves` to `_SlavesHandler`), yet with
`offset=0&limit=2` it returns the whole 5-element registry instead of the
sub-sequence `[0, 2)` — so not every v2 listing endpoint paginates. -/
theorem v2_slaves_listing_ignores_pagination :
    (⟨"/v2/slaves", .slavesHandler, some 2⟩ : CompiledRoute) ∈ masterTable ∧
    SlavesHandler_get [10, 20, 30, 40, 50] ⟨some 0, some 2⟩ = [10, 20, 30, 40, 50] ∧
    SlavesHandler_get [10, 20, 30, 40, 50] ⟨some 0, some 2⟩
      ≠ paginate [10, 20, 30, 40, 50] 0 (some 2) :=
  ⟨by rw [masterTable_eq]; decide, rfl, by decide⟩

/-- C4 amended: the v2 builds, subjobs and atoms listing endpoints accept
`offset` (default 0) and `limit` and return the clamped sub-sequence
`[offset, offset+limit)` — with an out-of-range offset yielding an empty list —
while the v1 listing endpoints, and the slave listing endpoint shared by both
versions, ignore these parameters and return the full collection. -/
theorem pagination_contract_amended (builds subjobs atoms slaves : List Nat)
    (q : Query) (xs : List Nat) (off : Nat) (lim : Option Nat)
    (hoff : xs.length ≤ off) :
    V2BuildsHandler_get builds q = paginate builds (q.offset.getD 0) q.limit ∧
    V2SubjobsHandler_get subjobs q = paginate subjobs (q.offset.getD 0) q.limit ∧
    V2AtomsHandler_get atoms q = paginate atoms (q.offset.getD 0) q.limit ∧
    (∀ l, paginate xs (q.offset.getD 0) (some l) = (xs.drop (q.offset.getD 0)).take l) ∧
    paginate xs off lim = [] ∧
    BuildsHandler_get builds q = builds ∧
    SubjobsHandler_get subjobs q = subjobs ∧
    AtomsHandler_get atoms q = atoms ∧
    SlavesHandler_get slaves q = slaves := by
  refine ⟨rfl, rfl, rfl, fun l => rfl, ?_, rfl, rfl, rfl, rfl⟩
  cases lim with
  | none => simp [paginate, List.drop_eq_nil_of_le hoff]
  | some l => simp [paginate, List.drop_eq_nil_of_le hoff]

/-- Witness for C4's amended claim, at the spec's own example collections: a
5-element collection with `offset=0,limit=2` yields exactly the first two
elements, `offset=10` yields the empty list, and the v1 handler returns the
full collection. -/
theorem pagination_contract_amended_witness :
    ([1, 2, 3, 4, 5] : List Nat).length ≤ 10 ∧
    (V2BuildsHandler_get [1, 2, 3, 4, 5] ⟨some 0, some 2⟩
        = paginate [1, 2, 3, 4, 5] 0 (some 2) ∧
      V2SubjobsHandler_get [1, 2, 3, 4, 5] ⟨some 0, some 2⟩
        = paginate [1, 2, 3, 4, 5] 0 (some 2) ∧
      V2AtomsHandler_get [1, 2, 3, 4, 5] ⟨some 0, some 2⟩
        = paginate [1, 2, 3, 4, 5] 0 (some 2) ∧
      (∀ l, paginate ([1, 2, 3, 4, 5] : List Nat) 0 (some l)
        = (([1, 2, 3, 4, 5] : List Nat).drop 0).take l) ∧
      paginate ([1, 2, 3, 4, 5] : List Nat) 10 (some 2) = [] ∧
      BuildsHandler_get [1, 2, 3, 4, 5] ⟨some 0, some 2⟩ = [1, 2, 3, 4, 5] ∧
      SubjobsHandler_get [1, 2, 3, 4, 5] ⟨some 0, some 2⟩ = [1, 2, 3, 4, 5] ∧
      AtomsHandler_get [1, 2, 3, 4, 5] ⟨some 0, some 2⟩ = [1, 2, 3, 4, 5] ∧
      SlavesHandler_get [1, 2, 3, 4, 5] ⟨some 0, some 2⟩ = [1, 2, 3, 4, 5]) :=
  ⟨by decide,
    pagination_contract_amended [1, 2, 3, 4, 5] [1, 2, 3, 4, 5] [1, 2, 3, 4, 5]
      [1, 2, 3, 4, 5] ⟨some 0, some 2⟩ [1, 2, 3, 4, 5] 10 (some 2) (by decide)⟩

/-- C5: two compiled entries of the same version sharing a full pattern make
the construction-time ambiguity guard fail (so the application never comes up),
while the application's real table — whose close patterns differ only in a
literal vs. captured-id segment, such as `/v1/slave/(\d+)` vs.
`/v1/slave/shutdown` — passes the guard at construction. -/
theorem routing_ambiguity_fatal_at_construction
    (es : List CompiledRoute) (i j : Nat) (hi : i < es.length) (hj : j < es.length)
    (hne : i ≠ j)
    (hv : es[i].version = es[j].version)
    (hp : es[i].fullPattern = es[j].fullPattern) :
    checkRoutingAmbiguity es = .error "RoutingAmbiguity" ∧
    ClusterMasterApplication_handlers = .ok masterTable := by
  constructor
  · have hi2 : i < (es.map routeKey).length := by simpa using hi
    have hj2 : j < (es.map routeKey).length := by simpa using hj
    have hkey : (es.map routeKey)[i] = (es.map routeKey)[j] := by
      simp only [List.getElem_map, routeKey]
      exact Prod.ext hv hp
    have hnd : ¬ (es.map routeKey).Nodup := fun hnd => hne (hnd.getElem_inj_iff.mp hkey)
    have hamb : hasRoutingAmbiguity es = true := by
      simp [hasRoutingAmbiguity, hnd]
    simp [checkRoutingAmbiguity, hamb]
  · have hok : hasRoutingAmbiguity masterTable = false := by
      rw [masterTable_eq]; decide
    simp [ClusterMasterApplication_handlers, checkRoutingAmbiguity, hok]

/-- A two-entry table whose entries share version and full pattern. -/
def ambiguousTable : List CompiledRoute :=
  [⟨"/v1/thing", .metricsHandler, some 1⟩, ⟨"/v1/thing", .versionHandler, some 1⟩]

/-- Witness for C5: the duplicate table is rejected at construction time and
the application's real table is accepted. -/
theorem routing_ambiguity_fatal_at_construction_witness :
    checkRoutingAmbiguity ambiguousTable = .error "RoutingAmbiguity" ∧
    ClusterMasterApplication_handlers = .ok masterTable :=
  routing_ambiguity_fatal_at_construction ambiguousTable 0 1 (by decide) (by decide)
    (by decide) (by decide) (by decide)

/-- A scheduler fixture: accepts new-build requests, rejects updates. -/
def specSched : Scheduler :=
  ⟨fun b => (true, b), fun _ b => (false, b)⟩

/-- A registry fixture with three known slaves. -/
def specRegistry : SlaveRegistry :=
  ⟨fun i => .ok ⟨"http://worker-7:8080", i⟩,
   fun _ => .ok worker7,
   [1, 2, 3]⟩

/-- A request carrying no authentication credential. -/
def unauthReq : Request := ⟨false, "build params", none, false, []⟩

/-- An authenticated request. -/
def authReq : Request := ⟨true, "build params", none, false, []⟩

/-- C6: an unauthenticated request to any of the mutating endpoints —
build create, build update, worker state update, single-worker shutdown and
all-workers shutdown — is rejected before the handler body runs, so the
collaborator call trace is empty. -/
theorem unauthenticated_rejected_before_handler
    (sched : Scheduler) (registry : SlaveRegistry) (req : Request)
    (build_id : String) (slave_id : Nat)
    (hauth : req.authenticated = false) :
    BuildsHandler_post sched req = ([], .response .unauthenticated) ∧
    BuildHandler_put sched build_id req = ([], .response .unauthenticated) ∧
    SlaveHandler_put registry slave_id req = ([], .response .unauthenticated) ∧
    SlaveShutdownHandler_post slave_id req = ([], .response .unauthenticated) ∧
    SlavesShutdownHandler_post registry req = ([], .response .unauthenticated) := by
  simp [BuildsHandler_post, BuildHandler_put, SlaveHandler_put,
    SlaveShutdownHandler_post, SlavesShutdownHandler_post,
    authenticated_decorator, hauth]

/-- Witness for C6: the concrete unauthenticated request produces an empty
collaborator trace on every mutating endpoint. -/
theorem unauthenticated_rejected_before_handler_witness :
    unauthReq.authenticated = false ∧
    (BuildsHandler_post specSched unauthReq = ([], .response .unauthenticated) ∧
      BuildHandler_put specSched "5" unauthReq = ([], .response .unauthenticated) ∧
      SlaveHandler_put specRegistry 5 unauthReq = ([], .response .unauthenticated) ∧
      SlaveShutdownHandler_post 5 unauthReq = ([], .response .unauthenticated) ∧
      SlavesShutdownHandler_post specRegistry unauthReq
        = ([], .response .unauthenticated)) :=
  ⟨rfl, unauthenticated_rejected_before_handler specSched specRegistry unauthReq
    "5" 5 rfl⟩

/-- C7 counterexample: the single-worker shutdown endpoint is a mutating
endpoint, yet on an authenticated request it applies the shutdown and writes no
`\x7bsuccess, body\x7d` envelope at all — its response is empty. -/
theorem slave_shutdown_writes_no_envelope :
    SlaveShutdownHandler_post 7 authReq
      = ([.set_shutdown_mode_on_slaves [7]], .response .empty) ∧
    Response.empty.isEnvelope = false :=
  ⟨rfl, rfl⟩

/-- C7 amended: the build create and update endpoints report their outcome via
the explicit `\x7bsuccess, body\x7d` envelope with distinct status codes (202
vs. 400 for create, 200 vs. 400 for update), while the worker shutdown
endpoints apply the mutation and write no envelope. -/
theorem mutating_endpoint_outcome_reporting
    (sched : Scheduler) (registry : SlaveRegistry) (req : Request)
    (build_id : String) (slave_id : Nat)
    (hauth : req.authenticated = true) :
    (BuildsHandler_post sched req).2
      = .response (write_status (sched.handle_request_for_new_build req.body_payload).2
          (sched.handle_request_for_new_build req.body_payload).1
          (if (sched.handle_request_for_new_build req.body_payload).1 then 202 else 400)) ∧
    (BuildHandler_put sched build_id req).2
      = .response (write_status
          (sched.handle_request_to_update_build build_id req.body_payload).2
          (sched.handle_request_to_update_build build_id req.body_payload).1
          (if (sched.handle_request_to_update_build build_id req.body_payload).1
            then 200 else 400)) ∧
    (∀ b s st, (write_status b s st).isEnvelope = true) ∧
    (SlaveShutdownHandler_post slave_id req).2 = .response .empty ∧
    (SlavesShutdownHandler_post registry req).2 = .response .empty := by
  refine ⟨?_, ?_, fun b s st => rfl, ?_, ?_⟩ <;>
    simp [BuildsHandler_post, BuildHandler_put, SlaveShutdownHandler_post,
      SlavesShutdownHandler_post, authenticated_decorator, hauth,
      BuildsHandler_post_body, BuildHandler_put_body,
      SlaveShutdownHandler_post_body, SlavesShutdownHandler_post_body]

/-- Witness for C7's amended claim: on the concrete authenticated request the
create endpoint answers with a success envelope and status 202, the update
endpoint with a failure envelope and status 400, and both shutdown endpoints
with an empty response. -/
theorem mutating_endpoint_outcome_reporting_witness :
    authReq.authenticated = true ∧
    ((BuildsHandler_post specSched authReq).2
        = .response (write_status "build params" true 202) ∧
      (BuildHandler_put specSched "5" authReq).2
        = .response (write_status "build params" false 400) ∧
      (∀ b s st, (write_status b s st).isEnvelope = true) ∧
      (SlaveShutdownHandler_post 5 authReq).2 = .response .empty ∧
      (SlavesShutdownHandler_post specRegistry authReq).2 = .response .empty) :=
  ⟨rfl, mutating_endpoint_outcome_reporting specSched specRegistry authReq "5" 5 rfl⟩

/-- A master fixture whose build 0 has a subjob 0 holding two atoms; its
console store is irrelevant here. -/
def atomMaster : Master :=
  ⟨fun _ => ⟨fun _ => ⟨none, fun _ => [⟨"atom0"⟩, ⟨"atom1"⟩]⟩⟩,
   fun _ _ _ _ _ _ => .error ⟨"nf"⟩,
   "/results"⟩

/-- C8: `_AtomHandler.get` can never surface the domain NotFound for an atom
id: line 223 binds the method `subjob.atoms` without calling it (its sibling
`_AtomsHandler.get` calls `subjob.atoms()` at line 203), so the subscript at
line 225 raises `TypeError` for every atom id, known or unknown — in
particular at a concrete subjob that demonstrably holds two atoms. -/
theorem atom_fetch_raises_type_error (master : Master) (build_id subjob_id atom_id : Nat) :
    AtomHandler_get master build_id subjob_id atom_id
      = .typeError "method object is not subscriptable" ∧
    (∀ e, AtomHandler_get master build_id subjob_id atom_id ≠ .itemNotFound e) ∧
    ((atomMaster.get_build 0).subjob 0).atoms () = [⟨"atom0"⟩, ⟨"atom1"⟩] ∧
    AtomHandler_get atomMaster 0 0 5
      = .typeError "method object is not subscriptable" :=
  ⟨rfl, fun e h => by simp [AtomHandler_get, PySubscriptable.getitem] at h, rfl, rfl⟩

/-- C9: for every build id, the build-result redirect handler issues a pure
HTTP redirect to the canonical tar-archive artifact path — independent of the
master's state — and that target is exactly a path accepted by the compiled
`/v1/build/(\d+)/artifacts.tar.gz` artifact route present in the table. -/
theorem build_result_redirect_is_pure (m m2 : Master) (build_id : String) :
    BuildResultRedirectHandler_get m build_id
      = .redirect ("/v1/build/" ++ build_id ++ "/artifacts.tar.gz") ∧
    BuildResultRedirectHandler_get m build_id
      = BuildResultRedirectHandler_get m2 build_id ∧
    (⟨"/v1/build/(\\d+)/artifacts.tar.gz", .buildTarResultHandler, some 1⟩
      : CompiledRoute) ∈ masterTable ∧
    pathMatches "/v1/build/(\\d+)/artifacts.tar.gz" "/v1/build/42/artifacts.tar.gz"
      = true :=
  ⟨rfl, rfl, by rw [masterTable_eq]; decide, by decide⟩

/-- C10: when the multipart payload of a subjob-result POST has no `file`
entry, the handler aborts with the `Result file not provided` error after only
the slave lookup, so `handle_result_reported_from_slave` is never invoked. -/
theorem subjob_result_missing_file_aborts
    (registry : SlaveRegistry) (slave_url : Option String)
    (files : List (String × List String)) (build_id subjob_id : Nat) (slave : Slave)
    (hslave : registry.get_slave_by_url slave_url = .ok slave)
    (hfile : files.lookup "file" = none) :
    SubjobResultHandler_post registry slave_url files build_id subjob_id
      = ([.get_slave], .error "Result file not provided") ∧
    CollabCall.handle_result_reported_from_slave
      ∉ (SubjobResultHandler_post registry slave_url files build_id subjob_id).1 := by
  have h : SubjobResultHandler_post registry slave_url files build_id subjob_id
      = ([.get_slave], .error "Result file not provided") := by
    simp [SubjobResultHandler_post, hslave, hfile]
  exact ⟨h, by rw [h]; decide⟩

/-- Witness for C10: a concrete multipart payload without a `file` entry makes
the handler abort before the result-reporting collaborator call. -/
theorem subjob_result_missing_file_aborts_witness :
    specRegistry.get_slave_by_url (some "http://worker-7:8080") = .ok worker7 ∧
    ([("metadata", ["m"])].lookup "file" = none) ∧
    (SubjobResultHandler_post specRegistry (some "http://worker-7:8080")
        [("metadata", ["m"])] 1 2
      = ([.get_slave], .error "Result file not provided") ∧
      CollabCall.handle_result_reported_from_slave
        ∉ (SubjobResultHandler_post specRegistry (some "http://worker-7:8080")
            [("metadata", ["m"])] 1 2).1) :=
  ⟨rfl, rfl, subjob_result_missing_file_aborts specRegistry
    (some "http://worker-7:8080") [("metadata", ["m"])] 1 2 worker7 rfl rfl⟩

end ClusterMaster
